import Mathlib

/-!
Shallow embedding of the auto-scroll controller of
`src/src/hooks/useAutoScroll.tsx` (react-native-draggable-flatlist).

JavaScript numbers are modelled as rationals (`ℚ`); the reanimated
boolean-valued nodes (`lessOrEq`, `greaterOrEq`, ...) become `Bool`-valued
functions via `decide`.  Configuration read from `../constants`
(`SCROLL_POSITION_TOLERANCE`, `isAndroid`) and from props
(`autoscrollThreshold`, `autoscrollSpeed`) is abstracted into a `Config`
record, so every theorem quantifies over those values.
-/

namespace DraggableFlatlist

/-- Configuration and platform constants visible to `useAutoScroll`:
`autoscrollThreshold` / `autoscrollSpeed` from props,
`isAndroid` and `tolerance` (= `SCROLL_POSITION_TOLERANCE`) from
`../constants`. -/
structure Config where
  autoscrollThreshold : ℚ
  autoscrollSpeed : ℚ
  isAndroid : Bool
  tolerance : ℚ
deriving Repr, DecidableEq

/-- The value of `GestureState.ACTIVE` in react-native-gesture-handler. -/
def GestureStateActive : ℤ := 4

/-! ## Geometry evaluator (useAutoScroll.tsx lines 50–70) -/

/-- Line 50: `isScrolledUp = lessOrEq(sub(scrollOffset,
SCROLL_POSITION_TOLERANCE), 0)`. -/
def isScrolledUp (cfg : Config) (scrollOffset : ℚ) : Bool :=
  decide (scrollOffset - cfg.tolerance ≤ 0)

/-- Line 53: `isScrolledDown = greaterOrEq(add(scrollOffset, containerSize,
SCROLL_POSITION_TOLERANCE), scrollViewSize)`. -/
def isScrolledDown (cfg : Config) (scrollOffset containerSize scrollViewSize : ℚ) : Bool :=
  decide (scrollOffset + containerSize + cfg.tolerance ≥ scrollViewSize)

/-- Line 60: `distToTopEdge = max(0, hoverAnim)`. -/
def distToTopEdge (hoverAnim : ℚ) : ℚ := max 0 hoverAnim

/-- Line 61: `distToBottomEdge = max(0, sub(containerSize, add(hoverAnim,
activeCellSize)))`. -/
def distToBottomEdge (containerSize hoverAnim activeCellSize : ℚ) : ℚ :=
  max 0 (containerSize - (hoverAnim + activeCellSize))

/-- Line 65: `isAtTopEdge = lessOrEq(distToTopEdge, autoscrollThreshold)`. -/
def isAtTopEdge (cfg : Config) (dTop : ℚ) : Bool :=
  decide (dTop ≤ cfg.autoscrollThreshold)

/-- Line 66: `isAtBottomEdge = lessOrEq(distToBottomEdge,
autoscrollThreshold)`. -/
def isAtBottomEdge (cfg : Config) (dBottom : ℚ) : Bool :=
  decide (dBottom ≤ cfg.autoscrollThreshold)

/-- Line 70: `isAtEdge = or(isAtBottomEdge, isAtTopEdge)`. -/
def isAtEdge (cfg : Config) (dTop dBottom : ℚ) : Bool :=
  isAtBottomEdge cfg dBottom || isAtTopEdge cfg dTop

/-! ## computeTarget = getScrollTargetOffset (lines 128–153) -/

/-- Line 145: `speedPct = 1 - distFromEdge / autoscrollThreshold`. -/
def speedPct (cfg : Config) (distFromEdge : ℚ) : ℚ :=
  1 - distFromEdge / cfg.autoscrollThreshold

/-- Line 147: `speed = isAndroid ? autoscrollSpeed / 10 : autoscrollSpeed`. -/
def effectiveSpeed (cfg : Config) : ℚ :=
  if cfg.isAndroid then cfg.autoscrollSpeed / 10 else cfg.autoscrollSpeed

/-- Lines 128–153: `getScrollTargetOffset`.  `jsInFlight` is the value of
`isAutoScrollInProgress.current.js` read at line 135. -/
def getScrollTargetOffset (cfg : Config) (jsInFlight : Bool)
    (distFromTop distFromBottom scrollOffset : ℚ)
    (isScrolledUp isScrolledDown : Bool) : ℚ :=
  if jsInFlight then -1
  else
    let scrollUp : Bool := decide (distFromTop < cfg.autoscrollThreshold)
    let scrollDown : Bool := decide (distFromBottom < cfg.autoscrollThreshold)
    if !(scrollUp || scrollDown) || (scrollUp && isScrolledUp) ||
        (scrollDown && isScrolledDown) then -1
    else
      let distFromEdge := if scrollUp then distFromTop else distFromBottom
      let offset := speedPct cfg distFromEdge * effectiveSpeed cfg
      if scrollUp then max 0 (scrollOffset - offset) else scrollOffset + offset

/-! ## Shared mutable state and the autoscroll loop (lines 79–199) -/

/-- The geometry snapshot `autoscrollParams = [distToTopEdge, distToBottomEdge,
scrollOffset, isScrolledUp, isScrolledDown]` (lines 71–77), with the
reanimated 0/1 values already coerced to `Bool` (the loop applies `!!`). -/
structure AutoscrollParams where
  distToTopEdge : ℚ
  distToBottomEdge : ℚ
  scrollOffset : ℚ
  isScrolledUp : Bool
  isScrolledDown : Bool
deriving Repr, DecidableEq

/-- The mutable cells of the hook: `isAutoScrollInProgress.current.js`,
`isAutoScrollInProgress.current.native`, `targetScrollOffset`,
`autoscrollLooping.current`, `isDraggingCellJS.current`. -/
structure LoopState where
  jsInFlight : Bool
  nativeInFlight : Bool
  targetScrollOffset : ℚ
  autoscrollLooping : Bool
  isDraggingCellJS : Bool
deriving Repr, DecidableEq

/-- One resolution of the promise created by `scrollToAsync` (line 111):
either the completion detector resolves it with a fresh geometry snapshot
(`ok`), or the awaited promise rejects (`err`, caught at line 193).
`dragging` is the value `isDraggingCellJS.current` holds when the loop
resumes. -/
inductive Resume where
  | ok (params : AutoscrollParams) (dragging : Bool)
  | err (dragging : Bool)
deriving Repr, DecidableEq

/-- Effect of `scrollToAsync(offset)` on the mutable cells (lines 111–117):
store the target, raise both copies of the in-flight flag. -/
def scrollToAsyncState (st : LoopState) (offset : ℚ) : LoopState :=
  { st with targetScrollOffset := offset, nativeInFlight := true,
            jsInFlight := true }

/-- The `while (shouldScroll)` body of `autoscroll` (lines 161–195), driven by
the list of promise resolutions.  Each iteration recomputes `targetOffset`,
`scrollingUpAtTop`, `scrollingDownAtBottom` and `shouldScroll` exactly as the
source does; if the loop decides to scroll it performs `scrollToAsync` and
suspends.  `none` means the await is never resolved (the loop stays suspended
forever); `some (st, cmds)` means the loop exited with final mutable state
`st` after issuing the scroll commands `cmds`.  An `ok` resumption reflects
the completion detector having cleared both in-flight flags before resolving;
an `err` resumption leaves them untouched and retries with the stale
`curParams`. -/
def runLoop (cfg : Config) (resumes : List Resume) (params : AutoscrollParams)
    (st : LoopState) : Option (LoopState × List ℚ) :=
  let targetOffset := getScrollTargetOffset cfg st.jsInFlight
    params.distToTopEdge params.distToBottomEdge params.scrollOffset
    params.isScrolledUp params.isScrolledDown
  let scrollingUpAtTop :=
    params.isScrolledUp && decide (targetOffset ≤ params.scrollOffset)
  let scrollingDownAtBottom :=
    params.isScrolledDown && decide (targetOffset ≥ params.scrollOffset)
  let shouldScroll := decide (targetOffset ≥ 0) && st.isDraggingCellJS &&
    !scrollingUpAtTop && !scrollingDownAtBottom
  if shouldScroll then
    match resumes with
    | [] => none
    | Resume.ok p drag :: rest =>
        Option.map (fun r => (r.1, targetOffset :: r.2))
          (runLoop cfg rest p
            { scrollToAsyncState st targetOffset with
                nativeInFlight := false, jsInFlight := false,
                isDraggingCellJS := drag })
    | Resume.err drag :: rest =>
        Option.map (fun r => (r.1, targetOffset :: r.2))
          (runLoop cfg rest params
            { scrollToAsyncState st targetOffset with
                isDraggingCellJS := drag })
  else some (st, [])
termination_by resumes.length
decreasing_by all_goals simp

/-- Lines 155–199: `autoscroll(params)` — the re-entrancy guard at line 156,
the guarded loop, and the `finally` at line 196 releasing the guard. -/
def autoscroll (cfg : Config) (resumes : List Resume)
    (params : AutoscrollParams) (st : LoopState) :
    Option (LoopState × List ℚ) :=
  if st.autoscrollLooping then some (st, [])
  else
    Option.map (fun r => ({ r.1 with autoscrollLooping := false }, r.2))
      (runLoop cfg resumes params { st with autoscrollLooping := true })

/-! ## checkAutoscroll (lines 201–212) -/

/-- The `cond(and(...), call(autoscrollParams, autoscroll))` node: returns the
snapshot passed to `autoscroll` when the gate fires, `none` otherwise.
`nativeInFlight` is `isAutoScrollInProgress.current.native`. -/
def checkAutoscroll (cfg : Config)
    (scrollOffset scrollViewSize containerSize hoverAnim activeCellSize : ℚ)
    (panGestureState : ℤ) (nativeInFlight : Bool) : Option AutoscrollParams :=
  let dTop := distToTopEdge hoverAnim
  let dBottom := distToBottomEdge containerSize hoverAnim activeCellSize
  let up := isScrolledUp cfg scrollOffset
  let down := isScrolledDown cfg scrollOffset containerSize scrollViewSize
  if isAtEdge cfg dTop dBottom && !(isAtTopEdge cfg dTop && up) &&
      !(isAtBottomEdge cfg dBottom && down) &&
      decide (panGestureState = GestureStateActive) && !nativeInFlight then
    some ⟨dTop, dBottom, scrollOffset, up, down⟩
  else none

/-! ## onScrollNode, the scroll-completion detector (lines 216–238) -/

/-- State the detector touches: the two in-flight copies and the target. -/
structure ScrollNodeState where
  nativeInFlight : Bool
  jsInFlight : Bool
  targetScrollOffset : ℚ
deriving Repr, DecidableEq

/-- One per-frame evaluation of `onScrollNode` over live values.  When the
condition holds it sets the native flag to 0 and runs
`onAutoscrollComplete` (lines 106–109), which clears the js flag and resolves
the pending promise with the current `autoscrollParams` snapshot — returned
here as `some` snapshot. -/
def onScrollNodeStep (cfg : Config) (st : ScrollNodeState)
    (scrollOffset scrollViewSize containerSize hoverAnim activeCellSize : ℚ) :
    ScrollNodeState × Option AutoscrollParams :=
  let up := isScrolledUp cfg scrollOffset
  let down := isScrolledDown cfg scrollOffset containerSize scrollViewSize
  if st.nativeInFlight &&
      (decide (|st.targetScrollOffset - scrollOffset| ≤ cfg.tolerance) ||
        (up && decide (st.targetScrollOffset ≤ scrollOffset)) ||
        (down && decide (st.targetScrollOffset ≥ scrollOffset))) then
    ({ st with nativeInFlight := false, jsInFlight := false },
      some ⟨distToTopEdge hoverAnim,
        distToBottomEdge containerSize hoverAnim activeCellSize,
        scrollOffset, up, down⟩)
  else (st, none)

/-! ## Branch lemmas for `getScrollTargetOffset` -/

theorem getScrollTargetOffset_of_jsInFlight (cfg : Config)
    (dT dB off : ℚ) (up down : Bool) :
    getScrollTargetOffset cfg true dT dB off up down = -1 := by
  simp [getScrollTargetOffset]

theorem getScrollTargetOffset_no_edge (cfg : Config) (js : Bool)
    (dT dB off : ℚ) (up down : Bool)
    (h1 : ¬ dT < cfg.autoscrollThreshold)
    (h2 : ¬ dB < cfg.autoscrollThreshold) :
    getScrollTargetOffset cfg js dT dB off up down = -1 := by
  cases js <;> simp [getScrollTargetOffset, h1, h2]

theorem getScrollTargetOffset_up_at_top (cfg : Config) (js : Bool)
    (dT dB off : ℚ) (down : Bool)
    (h1 : dT < cfg.autoscrollThreshold) :
    getScrollTargetOffset cfg js dT dB off true down = -1 := by
  cases js <;> simp [getScrollTargetOffset, h1]

theorem getScrollTargetOffset_down_at_bottom (cfg : Config) (js : Bool)
    (dT dB off : ℚ) (up : Bool)
    (h1 : dB < cfg.autoscrollThreshold) :
    getScrollTargetOffset cfg js dT dB off up true = -1 := by
  cases js <;> by_cases h2 : dT < cfg.autoscrollThreshold <;>
    cases up <;> simp [getScrollTargetOffset, h1, h2]

theorem getScrollTargetOffset_up_eq (cfg : Config) (dT dB off : ℚ) (down : Bool)
    (h1 : dT < cfg.autoscrollThreshold)
    (h2 : ¬(dB < cfg.autoscrollThreshold ∧ down = true)) :
    getScrollTargetOffset cfg false dT dB off false down =
      max 0 (off - speedPct cfg dT * effectiveSpeed cfg) := by
  by_cases hd : dB < cfg.autoscrollThreshold
  · have hdown : down = false := by
      cases down
      · rfl
      · exact absurd ⟨hd, rfl⟩ h2
    subst hdown
    simp [getScrollTargetOffset, h1, hd]
  · simp [getScrollTargetOffset, h1, hd]

theorem getScrollTargetOffset_down_eq (cfg : Config) (dT dB off : ℚ) (up : Bool)
    (h1 : ¬ dT < cfg.autoscrollThreshold)
    (h2 : dB < cfg.autoscrollThreshold) :
    getScrollTargetOffset cfg false dT dB off up false =
      off + speedPct cfg dB * effectiveSpeed cfg := by
  cases up <;> simp [getScrollTargetOffset, h1, h2]

theorem effectiveSpeed_nonneg (cfg : Config) (hs : 0 ≤ cfg.autoscrollSpeed) :
    0 ≤ effectiveSpeed cfg := by
  unfold effectiveSpeed
  split
  · positivity
  · exact hs

theorem speedPct_nonneg (cfg : Config) (d : ℚ) (h0 : 0 ≤ d)
    (h1 : d < cfg.autoscrollThreshold) : 0 ≤ speedPct cfg d := by
  have hT : 0 < cfg.autoscrollThreshold := lt_of_le_of_lt h0 h1
  have : d / cfg.autoscrollThreshold ≤ 1 := by
    rw [div_le_one hT]
    exact le_of_lt h1
  unfold speedPct
  linarith

theorem speedPct_anti (cfg : Config) (d1 d2 : ℚ)
    (hT : 0 < cfg.autoscrollThreshold) (h12 : d1 ≤ d2) :
    speedPct cfg d2 ≤ speedPct cfg d1 := by
  unfold speedPct
  have : d1 / cfg.autoscrollThreshold ≤ d2 / cfg.autoscrollThreshold :=
    (div_le_div_iff_of_pos_right hT).mpr h12
  linarith

/-! ## Claim theorems -/

/-- C7: on every frame the geometry evaluator computes, side-effect free:
`isScrolledUp = (ScrollOffset − tolerance ≤ 0)`,
`isScrolledDown = (ScrollOffset + ViewportExtent + tolerance ≥ ContentExtent)`,
`distToTopEdge = max(0, DragPosition)`,
`distToBottomEdge = max(0, ViewportExtent − (DragPosition + DraggedCellExtent))`,
`isAtTopEdge = (distToTopEdge ≤ EdgeThreshold)`,
`isAtBottomEdge = (distToBottomEdge ≤ EdgeThreshold)`,
`isAtEdge = isAtTopEdge OR isAtBottomEdge`.
Here `ViewportExtent = containerSize`, `ContentExtent = scrollViewSize`,
`DragPosition = hoverAnim`, `DraggedCellExtent = activeCellSize`. -/
theorem geometry_evaluator_spec (cfg : Config)
    (scrollOffset scrollViewSize containerSize hoverAnim activeCellSize : ℚ) :
    (isScrolledUp cfg scrollOffset = true ↔ scrollOffset - cfg.tolerance ≤ 0) ∧
    (isScrolledDown cfg scrollOffset containerSize scrollViewSize = true ↔
      scrollOffset + containerSize + cfg.tolerance ≥ scrollViewSize) ∧
    distToTopEdge hoverAnim = max 0 hoverAnim ∧
    distToBottomEdge containerSize hoverAnim activeCellSize =
      max 0 (containerSize - (hoverAnim + activeCellSize)) ∧
    (isAtTopEdge cfg (distToTopEdge hoverAnim) = true ↔
      distToTopEdge hoverAnim ≤ cfg.autoscrollThreshold) ∧
    (isAtBottomEdge cfg (distToBottomEdge containerSize hoverAnim activeCellSize) = true ↔
      distToBottomEdge containerSize hoverAnim activeCellSize ≤
        cfg.autoscrollThreshold) ∧
    (isAtEdge cfg (distToTopEdge hoverAnim)
        (distToBottomEdge containerSize hoverAnim activeCellSize) = true ↔
      isAtTopEdge cfg (distToTopEdge hoverAnim) = true ∨
      isAtBottomEdge cfg (distToBottomEdge containerSize hoverAnim activeCellSize)
        = true) := by
  refine ⟨by simp [isScrolledUp], by simp [isScrolledDown], rfl, rfl,
    by simp [isAtTopEdge], by simp [isAtBottomEdge], ?_⟩
  simp [isAtEdge, or_comm]

/-- C9: in the linear ramp `speedPct = 1 − distFromEdge/EdgeThreshold`, at
`distFromEdge = EdgeThreshold` the percentage is 0 and the code produces no
movement (both edge tests are strict, so the sentinel −1 is returned), and at
`distFromEdge = 0` the percentage is 1, so the delta is the full effective
speed (the platform-corrected ScrollSpeed). -/
theorem speed_ramp_endpoints (cfg : Config) (off : ℚ) (up down : Bool)
    (hT : cfg.autoscrollThreshold ≠ 0) :
    speedPct cfg cfg.autoscrollThreshold = 0 ∧
    speedPct cfg 0 = 1 ∧
    getScrollTargetOffset cfg false cfg.autoscrollThreshold
      cfg.autoscrollThreshold off up down = -1 ∧
    speedPct cfg 0 * effectiveSpeed cfg = effectiveSpeed cfg := by
  have h0 : speedPct cfg 0 = 1 := by simp [speedPct]
  refine ⟨by simp [speedPct, div_self hT], h0, ?_, by rw [h0, one_mul]⟩
  exact getScrollTargetOffset_no_edge cfg false _ _ off up down
    (lt_irrefl _) (lt_irrefl _)

/-- C9 witness: the endpoints of the ramp at the concrete configuration
threshold 50, speed 100, non-Android, tolerance 2. -/
theorem speed_ramp_endpoints_witness :
    speedPct ⟨50, 100, false, 2⟩ 50 = 0 ∧
    speedPct ⟨50, 100, false, 2⟩ 0 = 1 ∧
    getScrollTargetOffset ⟨50, 100, false, 2⟩ false 50 50 200 false false = -1 ∧
    speedPct ⟨50, 100, false, 2⟩ 0 * effectiveSpeed ⟨50, 100, false, 2⟩ =
      effectiveSpeed ⟨50, 100, false, 2⟩ :=
  speed_ramp_endpoints ⟨50, 100, false, 2⟩ 200 false false (by norm_num)

/-- C4: `getScrollTargetOffset` returns the sentinel −1 when the JS in-flight
flag is set, when neither distance is strictly under the threshold, when
scroll-up applies while `isScrolledUp`, and when scroll-down applies while
`isScrolledDown`. -/
theorem computeTarget_sentinel_cases (cfg : Config) (js : Bool)
    (dT dB off : ℚ) (up down : Bool) :
    (js = true → getScrollTargetOffset cfg js dT dB off up down = -1) ∧
    (¬ dT < cfg.autoscrollThreshold → ¬ dB < cfg.autoscrollThreshold →
      getScrollTargetOffset cfg js dT dB off up down = -1) ∧
    (dT < cfg.autoscrollThreshold → up = true →
      getScrollTargetOffset cfg js dT dB off up down = -1) ∧
    (dB < cfg.autoscrollThreshold → down = true →
      getScrollTargetOffset cfg js dT dB off up down = -1) := by
  refine ⟨?_, ?_, ?_, ?_⟩
  · rintro rfl
    exact getScrollTargetOffset_of_jsInFlight cfg dT dB off up down
  · intro h1 h2
    exact getScrollTargetOffset_no_edge cfg js dT dB off up down h1 h2
  · rintro h1 rfl
    exact getScrollTargetOffset_up_at_top cfg js dT dB off down h1
  · rintro h1 rfl
    exact getScrollTargetOffset_down_at_bottom cfg js dT dB off up h1

/-- C4 witness: scroll-up applies (10 < 50) while already scrolled to the
top, so the sentinel is returned. -/
theorem computeTarget_sentinel_cases_witness :
    getScrollTargetOffset ⟨50, 100, false, 2⟩ false 10 340 200 true false = -1 :=
  (computeTarget_sentinel_cases ⟨50, 100, false, 2⟩ false 10 340 200 true
    false).2.2.1 (by norm_num) rfl

/-- C1 counterexample: with EdgeThreshold 50, ScrollSpeed 100, non-Android,
no scroll in flight, `distFromTop = 10` (so scroll-up applies and
`isScrolledUp = false`), but also `distFromBottom = 10` with
`isScrolledDown = true`: the claim's formula predicts
`max(0, 200 − (1 − 10/50)·100) = 120`, yet the code returns the sentinel −1
because of the `scrollDown && isScrolledDown` disjunct. -/
theorem computeTarget_formula_counterexample :
    getScrollTargetOffset ⟨50, 100, false, 2⟩ false 10 10 200 false true ≠
      max 0 (200 - speedPct ⟨50, 100, false, 2⟩ 10 *
        effectiveSpeed ⟨50, 100, false, 2⟩) ∧
    getScrollTargetOffset ⟨50, 100, false, 2⟩ false 10 10 200 false true = -1 ∧
    max 0 (200 - speedPct ⟨50, 100, false, 2⟩ 10 *
      effectiveSpeed ⟨50, 100, false, 2⟩) = (120 : ℚ) := by
  have h1 : getScrollTargetOffset ⟨50, 100, false, 2⟩ false 10 10 200 false true
      = -1 := by
    norm_num [getScrollTargetOffset]
  have h2 : max 0 (200 - speedPct ⟨50, 100, false, 2⟩ 10 *
      effectiveSpeed ⟨50, 100, false, 2⟩) = (120 : ℚ) := by
    norm_num [speedPct, effectiveSpeed]
  refine ⟨?_, h1, h2⟩
  rw [h1, h2]
  norm_num

/-- C1 (amended): when no scroll is in flight and a direction applies with its
boundary flag false, the target follows the ramp formula — with the extra
proviso forced by the code that, in the scroll-up case, it is not also the
case that `distFromBottom < EdgeThreshold ∧ isScrolledDown` (otherwise the
sentinel is returned).  Concretely, with EdgeThreshold 50, ScrollSpeed 100
(non-Android), distFromTop 10, ScrollOffset 200, `isScrolledUp = false` (and
scroll-down not applicable), the result is 120. -/
theorem computeTarget_formula (cfg : Config) (dT dB off : ℚ) (up down : Bool) :
    (dT < cfg.autoscrollThreshold → up = false →
      ¬(dB < cfg.autoscrollThreshold ∧ down = true) →
      getScrollTargetOffset cfg false dT dB off up down =
        max 0 (off - speedPct cfg dT * effectiveSpeed cfg)) ∧
    (¬ dT < cfg.autoscrollThreshold → dB < cfg.autoscrollThreshold →
      down = false →
      getScrollTargetOffset cfg false dT dB off up down =
        off + speedPct cfg dB * effectiveSpeed cfg) ∧
    getScrollTargetOffset ⟨50, 100, false, 2⟩ false 10 340 200 false false =
      (120 : ℚ) := by
  refine ⟨?_, ?_, ?_⟩
  · rintro h1 rfl h2
    exact getScrollTargetOffset_up_eq cfg dT dB off down h1 h2
  · rintro h1 h2 rfl
    exact getScrollTargetOffset_down_eq cfg dT dB off up h1 h2
  · norm_num [getScrollTargetOffset, speedPct, effectiveSpeed]

/-- C1 witness: the scroll-up formula at threshold 50, speed 100,
distFromTop 10, offset 200, both boundary flags false. -/
theorem computeTarget_formula_witness :
    getScrollTargetOffset ⟨50, 100, false, 2⟩ false 10 340 200 false false =
      max 0 (200 - speedPct ⟨50, 100, false, 2⟩ 10 *
        effectiveSpeed ⟨50, 100, false, 2⟩) :=
  (computeTarget_formula ⟨50, 100, false, 2⟩ 10 340 200 false false).1
    (by norm_num) rfl (by norm_num)

/-- C10 (implicit): for non-negative distances, non-negative scroll offset and
non-negative configured speed, `getScrollTargetOffset` returns either exactly
the sentinel −1 or a value ≥ 0, so `targetOffset >= 0` in the loop cleanly
separates the sentinel from genuine targets, and a scroll-up target is
clamped at 0. -/
theorem computeTarget_nonneg_or_sentinel (cfg : Config) (js : Bool)
    (dT dB off : ℚ) (up down : Bool)
    (h1 : 0 ≤ dT) (h2 : 0 ≤ dB) (h3 : 0 ≤ off)
    (hs : 0 ≤ cfg.autoscrollSpeed) :
    getScrollTargetOffset cfg js dT dB off up down = -1 ∨
      0 ≤ getScrollTargetOffset cfg js dT dB off up down := by
  cases js
  · by_cases hu : dT < cfg.autoscrollThreshold
    · cases up
      · by_cases hd : dB < cfg.autoscrollThreshold ∧ down = true
        · obtain ⟨hdb, hdt⟩ := hd
          subst hdt
          exact Or.inl (getScrollTargetOffset_down_at_bottom cfg false dT dB off
            false hdb)
        · rw [getScrollTargetOffset_up_eq cfg dT dB off down hu hd]
          exact Or.inr (le_max_left 0 _)
      · exact Or.inl (getScrollTargetOffset_up_at_top cfg false dT dB off down hu)
    · by_cases hd : dB < cfg.autoscrollThreshold
      · cases down
        · rw [getScrollTargetOffset_down_eq cfg dT dB off up hu hd]
          have hpct : 0 ≤ speedPct cfg dB := speedPct_nonneg cfg dB h2 hd
          have heff : 0 ≤ effectiveSpeed cfg := effectiveSpeed_nonneg cfg hs
          exact Or.inr (by positivity)
        · exact Or.inl (getScrollTargetOffset_down_at_bottom cfg false dT dB off
            up hd)
      · exact Or.inl (getScrollTargetOffset_no_edge cfg false dT dB off up down
          hu hd)
  · exact Or.inl (getScrollTargetOffset_of_jsInFlight cfg dT dB off up down)

/-- C10 witness: a genuine scroll-up target at a concrete input is ≥ 0 (here
the −1 disjunct is ruled out by evaluation). -/
theorem computeTarget_nonneg_or_sentinel_witness :
    getScrollTargetOffset ⟨50, 100, false, 2⟩ false 10 340 200 false false = -1 ∨
      0 ≤ getScrollTargetOffset ⟨50, 100, false, 2⟩ false 10 340 200 false false :=
  computeTarget_nonneg_or_sentinel ⟨50, 100, false, 2⟩ false 10 340 200 false
    false (by norm_num) (by norm_num) (by norm_num) (by norm_num)

/-- C8: for a fixed direction, configuration, scroll offset and boundary
flags (false), the delta magnitude is antitone in `distFromEdge`: for
`0 ≤ d1 ≤ d2 < EdgeThreshold`, the magnitude produced at `d2` is at most the
one produced at `d1` — in the scroll-up case `|ScrollOffset − target|` after
the clamp at 0, in the scroll-down case `target − ScrollOffset`. -/
theorem computeTarget_monotone_in_dist (cfg : Config) (d1 d2 off dB dT : ℚ)
    (h1 : 0 ≤ d1) (h12 : d1 ≤ d2) (h2 : d2 < cfg.autoscrollThreshold)
    (hs : 0 ≤ cfg.autoscrollSpeed) (hoff : 0 ≤ off)
    (hB : ¬ dB < cfg.autoscrollThreshold)
    (hT : ¬ dT < cfg.autoscrollThreshold) :
    |off - getScrollTargetOffset cfg false d2 dB off false false| ≤
      |off - getScrollTargetOffset cfg false d1 dB off false false| ∧
    getScrollTargetOffset cfg false dT d2 off false false - off ≤
      getScrollTargetOffset cfg false dT d1 off false false - off := by
  have hd1 : d1 < cfg.autoscrollThreshold := lt_of_le_of_lt h12 h2
  have hTpos : 0 < cfg.autoscrollThreshold := lt_of_le_of_lt (h1.trans h12) h2
  have heff : 0 ≤ effectiveSpeed cfg := effectiveSpeed_nonneg cfg hs
  have hpct2 : 0 ≤ speedPct cfg d2 := speedPct_nonneg cfg d2 (h1.trans h12) h2
  have hpct1 : 0 ≤ speedPct cfg d1 := speedPct_nonneg cfg d1 h1 hd1
  have hanti : speedPct cfg d2 ≤ speedPct cfg d1 := speedPct_anti cfg d1 d2 hTpos h12
  have ho : speedPct cfg d2 * effectiveSpeed cfg ≤
      speedPct cfg d1 * effectiveSpeed cfg :=
    mul_le_mul_of_nonneg_right hanti heff
  have ho2 : 0 ≤ speedPct cfg d2 * effectiveSpeed cfg := mul_nonneg hpct2 heff
  have ho1 : 0 ≤ speedPct cfg d1 * effectiveSpeed cfg := mul_nonneg hpct1 heff
  constructor
  · rw [getScrollTargetOffset_up_eq cfg d2 dB off false h2 (by simp [hB]),
      getScrollTargetOffset_up_eq cfg d1 dB off false hd1 (by simp [hB])]
    have key : ∀ o : ℚ, 0 ≤ o → off - max 0 (off - o) = min off o := by
      intro o hoNN
      rcases le_total o off with h | h
      · rw [max_eq_right (by linarith), min_eq_right h]
        ring
      · rw [max_eq_left (by linarith), min_eq_left h]
        ring
    rw [key _ ho2, key _ ho1,
      abs_of_nonneg (le_min hoff ho2), abs_of_nonneg (le_min hoff ho1)]
    exact min_le_min le_rfl ho
  · rw [getScrollTargetOffset_down_eq cfg dT d2 off false hT h2,
      getScrollTargetOffset_down_eq cfg dT d1 off false hT hd1]
    linarith

/-- C8 witness: at threshold 50, speed 100, offset 200, the magnitude at
distance 20 is at most the magnitude at distance 10, in both directions. -/
theorem computeTarget_monotone_in_dist_witness :
    |(200 : ℚ) - getScrollTargetOffset ⟨50, 100, false, 2⟩ false 20 340 200
        false false| ≤
      |(200 : ℚ) - getScrollTargetOffset ⟨50, 100, false, 2⟩ false 10 340 200
        false false| ∧
    getScrollTargetOffset ⟨50, 100, false, 2⟩ false 340 20 200 false false -
        200 ≤
      getScrollTargetOffset ⟨50, 100, false, 2⟩ false 340 10 200 false false -
        200 :=
  computeTarget_monotone_in_dist ⟨50, 100, false, 2⟩ 10 20 200 340 340
    (by norm_num) (by norm_num) (by norm_num) (by norm_num) (by norm_num)
    (by norm_num) (by norm_num)

/-- C2: the completion detector fires exactly when the native in-flight flag
is set and the target has been reached within tolerance, or the applicable
boundary flag shows no further progress is possible; on fire it clears the
native flag and resolves the pending await with the current geometry
snapshot `(distToTopEdge, distToBottomEdge, ScrollOffset, isScrolledUp,
isScrolledDown)` (clearing the JS flag via `onAutoscrollComplete`). -/
theorem onScrollNode_spec (cfg : Config) (st : ScrollNodeState)
    (scrollOffset scrollViewSize containerSize hoverAnim activeCellSize : ℚ) :
    ((onScrollNodeStep cfg st scrollOffset scrollViewSize containerSize
        hoverAnim activeCellSize).2.isSome = true ↔
      st.nativeInFlight = true ∧
        (|st.targetScrollOffset - scrollOffset| ≤ cfg.tolerance ∨
          (isScrolledUp cfg scrollOffset = true ∧
            st.targetScrollOffset ≤ scrollOffset) ∨
          (isScrolledDown cfg scrollOffset containerSize scrollViewSize = true ∧
            st.targetScrollOffset ≥ scrollOffset))) ∧
    ((onScrollNodeStep cfg st scrollOffset scrollViewSize containerSize
        hoverAnim activeCellSize).2.isSome = true →
      onScrollNodeStep cfg st scrollOffset scrollViewSize containerSize
          hoverAnim activeCellSize =
        ({ st with nativeInFlight := false, jsInFlight := false },
          some ⟨distToTopEdge hoverAnim,
            distToBottomEdge containerSize hoverAnim activeCellSize,
            scrollOffset, isScrolledUp cfg scrollOffset,
            isScrolledDown cfg scrollOffset containerSize scrollViewSize⟩)) := by
  constructor
  · unfold onScrollNodeStep
    dsimp only
    split
    next h =>
      refine iff_of_true rfl ?_
      simp only [Bool.and_eq_true, Bool.or_eq_true, decide_eq_true_eq] at h
      tauto
    next h =>
      refine iff_of_false (by simp) ?_
      intro hc
      apply h
      simp only [Bool.and_eq_true, Bool.or_eq_true, decide_eq_true_eq]
      tauto
  · unfold onScrollNodeStep
    dsimp only
    split
    · intro _
      rfl
    · intro hc
      simp at hc

/-- C2 witness: with the native flag set, target 120 and live offset 120
(within tolerance 2), the detector fires, clears the flags and emits the
geometry snapshot. -/
theorem onScrollNode_spec_witness :
    (onScrollNodeStep ⟨50, 100, false, 2⟩ ⟨true, true, 120⟩ 120 1000 400 10
      50).2.isSome = true ∧
    onScrollNodeStep ⟨50, 100, false, 2⟩ ⟨true, true, 120⟩ 120 1000 400 10 50 =
      (⟨false, false, 120⟩, some ⟨10, 340, 120, false, false⟩) := by
  have h := onScrollNode_spec ⟨50, 100, false, 2⟩ ⟨true, true, 120⟩ 120 1000
    400 10 50
  have hfire : (onScrollNodeStep ⟨50, 100, false, 2⟩ ⟨true, true, 120⟩ 120 1000
      400 10 50).2.isSome = true :=
    h.1.mpr ⟨rfl, Or.inl (by norm_num)⟩
  refine ⟨hfire, (h.2 hfire).trans ?_⟩
  norm_num [distToTopEdge, distToBottomEdge, isScrolledUp, isScrolledDown]

/-- C3: the edge-trigger gate invokes the loop with the snapshot
`(distToTopEdge, distToBottomEdge, ScrollOffset, isScrolledUp,
isScrolledDown)` exactly when `isAtEdge`, not already at the triggering
boundary, the pan gesture is ACTIVE, and the native in-flight flag is clear;
in particular whenever `isAtEdge` is false the loop is never invoked. -/
theorem checkAutoscroll_spec (cfg : Config)
    (scrollOffset scrollViewSize containerSize hoverAnim activeCellSize : ℚ)
    (panGestureState : ℤ) (native : Bool) :
    ((checkAutoscroll cfg scrollOffset scrollViewSize containerSize hoverAnim
        activeCellSize panGestureState native).isSome = true ↔
      isAtEdge cfg (distToTopEdge hoverAnim)
          (distToBottomEdge containerSize hoverAnim activeCellSize) = true ∧
        ¬(isAtTopEdge cfg (distToTopEdge hoverAnim) = true ∧
          isScrolledUp cfg scrollOffset = true) ∧
        ¬(isAtBottomEdge cfg
            (distToBottomEdge containerSize hoverAnim activeCellSize) = true ∧
          isScrolledDown cfg scrollOffset containerSize scrollViewSize = true) ∧
        panGestureState = GestureStateActive ∧ native = false) ∧
    (∀ p, checkAutoscroll cfg scrollOffset scrollViewSize containerSize
        hoverAnim activeCellSize panGestureState native = some p →
      p = ⟨distToTopEdge hoverAnim,
        distToBottomEdge containerSize hoverAnim activeCellSize, scrollOffset,
        isScrolledUp cfg scrollOffset,
        isScrolledDown cfg scrollOffset containerSize scrollViewSize⟩) ∧
    (isAtEdge cfg (distToTopEdge hoverAnim)
        (distToBottomEdge containerSize hoverAnim activeCellSize) = false →
      checkAutoscroll cfg scrollOffset scrollViewSize containerSize hoverAnim
        activeCellSize panGestureState native = none) := by
  refine ⟨?_, ?_, ?_⟩
  · unfold checkAutoscroll
    dsimp only
    split
    next h =>
      refine iff_of_true rfl ?_
      simp only [Bool.and_eq_true, Bool.not_eq_true', Bool.and_eq_false_iff,
        decide_eq_true_eq] at h
      obtain ⟨⟨⟨⟨hE, hTop⟩, hBot⟩, hPan⟩, hNat⟩ := h
      refine ⟨hE, ?_, ?_, hPan, by simpa using hNat⟩
      · rintro ⟨ha, hb⟩
        rcases hTop with h | h <;> simp_all
      · rintro ⟨ha, hb⟩
        rcases hBot with h | h <;> simp_all
    next h =>
      refine iff_of_false (by simp) ?_
      rintro ⟨hE, hTop, hBot, hPan, hNat⟩
      apply h
      subst hNat
      have hBC : (isAtTopEdge cfg (distToTopEdge hoverAnim) &&
          isScrolledUp cfg scrollOffset) = false := by
        cases hB : isAtTopEdge cfg (distToTopEdge hoverAnim) <;>
          cases hC : isScrolledUp cfg scrollOffset <;> simp_all
      have hDE : (isAtBottomEdge cfg
            (distToBottomEdge containerSize hoverAnim activeCellSize) &&
          isScrolledDown cfg scrollOffset containerSize scrollViewSize)
          = false := by
        cases hB : isAtBottomEdge cfg
            (distToBottomEdge containerSize hoverAnim activeCellSize) <;>
          cases hC : isScrolledDown cfg scrollOffset containerSize
            scrollViewSize <;> simp_all
      simp [hE, hBC, hDE, hPan]
  · intro p hp
    unfold checkAutoscroll at hp
    dsimp only at hp
    split at hp
    · exact (Option.some_inj.mp hp).symm
    · exact absurd hp (by simp)
  · intro hE
    unfold checkAutoscroll
    dsimp only
    simp [hE]

/-- C3 witness: with the drag far from both edges (`isAtEdge` false) the gate
emits nothing. -/
theorem checkAutoscroll_spec_witness :
    checkAutoscroll ⟨50, 100, false, 2⟩ 200 1000 400 100 50 4 false = none :=
  (checkAutoscroll_spec ⟨50, 100, false, 2⟩ 200 1000 400 100 50 4 false).2.2
    (by norm_num [isAtEdge, isAtTopEdge, isAtBottomEdge, distToTopEdge,
      distToBottomEdge])

/-- If the drag flag is down when an iteration starts, `shouldScroll` is
false and the loop exits at once, with no scroll command. -/
theorem runLoop_not_dragging (cfg : Config) (resumes : List Resume)
    (params : AutoscrollParams) (st : LoopState)
    (h : st.isDraggingCellJS = false) :
    runLoop cfg resumes params st = some (st, []) := by
  rw [runLoop.eq_def]
  simp [h]

/-- C5: `autoscroll` is re-entrant-safe: when the `autoscrollLooping` guard is
already held the call returns at once, with the state unchanged and no scroll
command issued (so a second loop never starts); and whenever the loop exits —
for any sequence of resumptions, promise rejections included — the `finally`
releases the guard. -/
theorem autoscroll_loop_guard (cfg : Config) (resumes : List Resume)
    (params : AutoscrollParams) (st : LoopState) :
    (st.autoscrollLooping = true →
      autoscroll cfg resumes params st = some (st, [])) ∧
    (∀ st' cmds, autoscroll cfg resumes params st = some (st', cmds) →
      st.autoscrollLooping = false → st'.autoscrollLooping = false) := by
  constructor
  · intro h
    unfold autoscroll
    rw [if_pos h]
  · intro st' cmds hrun hguard
    unfold autoscroll at hrun
    rw [if_neg (by simp [hguard])] at hrun
    rcases hres : runLoop cfg resumes params
        { st with autoscrollLooping := true } with _ | r
    · rw [hres] at hrun
      exact absurd hrun (by simp)
    · rw [hres] at hrun
      have h2 : ({ r.1 with autoscrollLooping := false }, r.2) = (st', cmds) :=
        Option.some_inj.mp hrun
      have h3 := congrArg (fun p => p.1.autoscrollLooping) h2
      exact h3.symm

/-- C5 witness: invoking `autoscroll` while the guard is held is a no-op at a
concrete state. -/
theorem autoscroll_loop_guard_witness :
    autoscroll ⟨50, 100, false, 2⟩ [] ⟨10, 340, 200, false, false⟩
      ⟨false, false, 0, true, true⟩ =
      some (⟨false, false, 0, true, true⟩, []) :=
  (autoscroll_loop_guard ⟨50, 100, false, 2⟩ [] ⟨10, 340, 200, false, false⟩
    ⟨false, false, 0, true, true⟩).1 rfl

/-- C6: if the drag ends while the loop is suspended (the pending promise is
resolved with `dragging = false`), the continuation check fails on resumption
and the loop exits, issuing no scroll command after that resumption: the run
completes (is `some`) and issues at most the one command that was already in
flight. -/
theorem autoscroll_stops_after_drag_end (cfg : Config) (rest : List Resume)
    (resumedParams params : AutoscrollParams) (st : LoopState)
    (h : st.autoscrollLooping = false) :
    ∃ st' cmds,
      autoscroll cfg (Resume.ok resumedParams false :: rest) params st =
        some (st', cmds) ∧ cmds.length ≤ 1 := by
  unfold autoscroll
  rw [if_neg (by simp [h])]
  rw [runLoop.eq_def]
  dsimp only
  split
  · rw [runLoop_not_dragging cfg rest resumedParams _ rfl]
    exact ⟨_, _, rfl, by simp⟩
  · exact ⟨_, _, rfl, by simp⟩

/-- C6 witness: a concrete run in which the one in-flight command finishes,
the drag has ended, and the loop exits with a single issued command. -/
theorem autoscroll_stops_after_drag_end_witness :
    ∃ st' cmds,
      autoscroll ⟨50, 100, false, 2⟩
          [Resume.ok ⟨10, 340, 120, false, false⟩ false]
          ⟨10, 340, 200, false, false⟩ ⟨false, false, 0, false, true⟩ =
        some (st', cmds) ∧ cmds.length ≤ 1 :=
  autoscroll_stops_after_drag_end ⟨50, 100, false, 2⟩ []
    ⟨10, 340, 120, false, false⟩ ⟨10, 340, 200, false, false⟩
    ⟨false, false, 0, false, true⟩ rfl

end DraggableFlatlist
